/-
Verification of the prompt/configuration management and chunk-routing core
of the LiteratureReviewAgent repository.

Shallow embedding conventions:
  * Python `str` is modelled as `List Char` (abbreviated `Str`); concrete
    strings enter through `String.toList`.
  * Python dicts are modelled as association lists in insertion order;
    `dict.get` / `in` become `List.lookup` / `isSome`.
  * Fallible code returns `Except String α` (or `Option` for the low-level
    `str.format` model); an uncaught Python exception is an `.error`.
  * Braces in template strings are written with the escapes \x7b and \x7d,
    and apostrophes with \x27.

Sources embedded: src/agents/__init__.py (LiteratureReviewAgent),
src/prompts/__init__.py (PromptTemplates), src/prompts/config.py
(PromptConfig).
-/
import Mathlib

namespace LitReview

/-- Python `str` modelled as a list of characters. -/
abbrev Str := List Char

/-- The ASCII whitespace characters stripped by Python `str.strip()`. -/
def pyIsSpace (c : Char) : Bool :=
  c == ' ' || c == '\t' || c == '\n' || c == '\r' || c == '\x0b' || c == '\x0c'

/-- Python `str.strip()` (no argument): remove whitespace from both ends. -/
def pyStrip (l : Str) : Str :=
  ((l.dropWhile pyIsSpace).reverse.dropWhile pyIsSpace).reverse

/-- Python `s.lstrip(chars)`: drop leading characters belonging to `chars`. -/
def pyLstrip (chars : Str) (l : Str) : Str :=
  l.dropWhile (chars.contains ·)

/-- Auxiliary for `pySplit`: accumulate the current field in reverse. -/
def pySplitAux (sep : Char) : Str → Str → List Str
  | [], cur => [cur.reverse]
  | c :: rest, cur =>
    if c == sep then cur.reverse :: pySplitAux sep rest []
    else pySplitAux sep rest (c :: cur)

/-- Python `s.split(sep)` for a single-character separator: splits on every
occurrence and keeps empty fields. -/
def pySplit (sep : Char) (s : Str) : List Str :=
  pySplitAux sep s []

/- ----------------------------------------------------------------------
   src/agents/__init__.py, LiteratureReviewAgent._parse_bullet_points
   (lines 125-138).
---------------------------------------------------------------------- -/

/-- The character set of the first `lstrip` in `_parse_bullet_points`:
Python `line.lstrip('"-* ')`. -/
def quoteDashStarSpace : Str := ['\x22', '-', '*', ' ']

/-- The character set of the second `lstrip`: Python `lstrip('123456789. ')`. -/
def digitsDotSpace : Str := ['1', '2', '3', '4', '5', '6', '7', '8', '9', '.', ' ']

/-- The `line.startswith(('"', '-', '*', '1.', '2.', '3.', '4.', '5.'))`
test of `_parse_bullet_points`. -/
def startsBullet (l : Str) : Bool :=
  ['\x22'].isPrefixOf l || ['-'].isPrefixOf l || ['*'].isPrefixOf l ||
  ['1', '.'].isPrefixOf l || ['2', '.'].isPrefixOf l || ['3', '.'].isPrefixOf l ||
  ['4', '.'].isPrefixOf l || ['5', '.'].isPrefixOf l

/-- One iteration of the `for line in lines` loop of `_parse_bullet_points`:
strip the line, test the bullet markers, remove the markers, and append the
cleaned line to the accumulator when it is non-empty. -/
def bulletStep (acc : List Str) (rawLine : Str) : List Str :=
  let line := pyStrip rawLine
  if startsBullet line then
    let cleaned := pyLstrip digitsDotSpace (pyLstrip quoteDashStarSpace line)
    if cleaned = [] then acc else acc ++ [cleaned]
  else acc

/-- `LiteratureReviewAgent._parse_bullet_points`: split the response on
newlines, collect cleaned bullet lines, and fall back to `[text]` when
nothing was collected. -/
def parse_bullet_points (text : Str) : List Str :=
  let lines := pySplit '\n' text
  let bullet_points := lines.foldl bulletStep []
  if bullet_points = [] then [text] else bullet_points

/- ----------------------------------------------------------------------
   Spec-side rendering of the bullet-parsing description (for C2/C6).
---------------------------------------------------------------------- -/

/-- Spec-side: does the line after the marker start with a period?
(Used for the "digit followed by a period" markers.) -/
def nextIsDot : Str → Bool
  | [] => false
  | d :: _ => d == '.'

/-- Spec-side (amended claim wording): the stripped line qualifies as a
bullet item iff it starts with a quote mark, a hyphen, an asterisk, or a
digit 1 through 5 followed by a period. -/
def specIsBulletStart : Str → Bool
  | [] => false
  | c :: rest =>
    c == '\x22' || c == '-' || c == '*' ||
    ((c == '1' || c == '2' || c == '3' || c == '4' || c == '5') && nextIsDot rest)

/-- Spec-side (claim as frozen, for the counterexample): qualifies iff the
stripped line starts with a quote mark, hyphen, asterisk, or ANY digit 1
through 9 followed by a period. -/
def claimIsBulletStart : Str → Bool
  | [] => false
  | c :: rest =>
    c == '\x22' || c == '-' || c == '*' ||
    ((c == '1' || c == '2' || c == '3' || c == '4' || c == '5' ||
      c == '6' || c == '7' || c == '8' || c == '9') && nextIsDot rest)

/-- Spec-side marker removal: first every leading quote/hyphen/asterisk/space
character is dropped, then every leading digit-1-to-9/period/space character. -/
def specStripMarkers (l : Str) : Str :=
  (l.dropWhile (fun c => c == '\x22' || c == '-' || c == '*' || c == ' ')).dropWhile
    (fun c => c == '1' || c == '2' || c == '3' || c == '4' || c == '5' ||
      c == '6' || c == '7' || c == '8' || c == '9' || c == '.' || c == ' ')

/-- Spec-side per-line result: `some cleaned` when the line is kept as a
bullet item, `none` when it is not a bullet or cleans to empty. -/
def specBulletOfLine (rawLine : Str) : Option Str :=
  let line := pyStrip rawLine
  if specIsBulletStart line then
    let cleaned := specStripMarkers line
    if cleaned = [] then none else some cleaned
  else none

/-- Spec-side list of bullet items of a response. -/
def specBullets (text : Str) : List Str :=
  (pySplit '\n' text).filterMap specBulletOfLine

/- Equivalence lemmas between the code-side loop and the spec-side
description. -/

theorem char_beq_comm (a b : Char) : (a == b) = (b == a) := by
  by_cases h : a = b
  · subst h; rfl
  · rw [beq_eq_false_iff_ne.mpr h, beq_eq_false_iff_ne.mpr (Ne.symm h)]

theorem startsBullet_eq_spec (l : Str) : startsBullet l = specIsBulletStart l := by
  match l with
  | [] => rfl
  | [c] =>
    simp only [startsBullet, specIsBulletStart, List.isPrefixOf, nextIsDot,
      Bool.and_true, Bool.and_false, Bool.or_false]
    rw [char_beq_comm '\x22' c, char_beq_comm '-' c, char_beq_comm '*' c]
  | c :: d :: rest =>
    simp only [startsBullet, specIsBulletStart, List.isPrefixOf, nextIsDot,
      Bool.and_true, Bool.and_false, Bool.or_false]
    rw [char_beq_comm '\x22' c, char_beq_comm '-' c, char_beq_comm '*' c,
      char_beq_comm '1' c, char_beq_comm '2' c, char_beq_comm '3' c,
      char_beq_comm '4' c, char_beq_comm '5' c, char_beq_comm '.' d]
    cases hd : (d == '.') <;> simp [hd, Bool.or_assoc, Bool.and_or_distrib_right]

theorem lstrip_markers_eq_spec (l : Str) :
    pyLstrip digitsDotSpace (pyLstrip quoteDashStarSpace l) = specStripMarkers l := by
  have h1 : (fun c => quoteDashStarSpace.contains c) =
      (fun c => c == '\x22' || c == '-' || c == '*' || c == ' ') := by
    funext c
    rw [Bool.eq_iff_iff]
    simp [quoteDashStarSpace, or_assoc]
  have h2 : (fun c => digitsDotSpace.contains c) =
      (fun c => c == '1' || c == '2' || c == '3' || c == '4' || c == '5' ||
        c == '6' || c == '7' || c == '8' || c == '9' || c == '.' || c == ' ') := by
    funext c
    rw [Bool.eq_iff_iff]
    simp [digitsDotSpace, or_assoc]
  simp only [pyLstrip, specStripMarkers, h1, h2]

theorem bulletStep_eq_spec (acc : List Str) (rawLine : Str) :
    bulletStep acc rawLine =
      acc ++ (match specBulletOfLine rawLine with
              | some b => [b]
              | none => []) := by
  simp only [bulletStep, specBulletOfLine, startsBullet_eq_spec, lstrip_markers_eq_spec]
  by_cases hs : specIsBulletStart (pyStrip rawLine) = true
  · simp only [hs, if_pos]
    by_cases hc : specStripMarkers (pyStrip rawLine) = []
    · simp [hc]
    · simp [hc]
  · simp only [Bool.not_eq_true] at hs
    simp [hs]

theorem foldl_bulletStep (lines : List Str) (acc : List Str) :
    lines.foldl bulletStep acc = acc ++ lines.filterMap specBulletOfLine := by
  induction lines generalizing acc with
  | nil => simp
  | cons l ls ih =>
    rw [List.foldl_cons, ih, bulletStep_eq_spec]
    cases h : specBulletOfLine l <;> simp [List.filterMap_cons, h]

theorem parse_bullet_points_eq_spec (text : Str) :
    parse_bullet_points text =
      (if specBullets text = [] then [text] else specBullets text) := by
  simp only [parse_bullet_points, specBullets, foldl_bulletStep, List.nil_append]

/- ----------------------------------------------------------------------
   Claim theorems about bullet-point parsing (C2, C6, C10).
---------------------------------------------------------------------- -/

/-- C2 (counterexample to the claim as frozen): the claim predicts that a
stripped line starting with any digit 1 through 9 followed by a period is a
bullet item, but the code only recognises the digits 1 through 5.  On the
input `"1. A\n6. B"` the claim predicts the result `["A", "B"]`, while the
code classifies `"6. B"` as not a bullet and returns `["A"]`. -/
theorem claim_C2_counterexample :
    claimIsBulletStart (pyStrip ("6. B".toList)) = true ∧
    startsBullet (pyStrip ("6. B".toList)) = false ∧
    parse_bullet_points ("1. A\n6. B".toList) = ["A".toList] ∧
    parse_bullet_points ("1. A\n6. B".toList) ≠ ["A".toList, "B".toList] := by
  refine ⟨by decide, by decide, by decide, by decide⟩

/-- C2 (amended): for every input string, the bullet items collected are
exactly those lines whose stripped form starts with a quote mark, a hyphen,
an asterisk, or a digit 1 through 5 followed by a period; for qualifying
lines all leading quote/hyphen/asterisk/space characters are removed and
then all leading digit-1-to-9/period/space characters; lines that become
empty are discarded; when nothing is collected the whole input is returned
as a single element. -/
theorem claim_C2 (text : Str) :
    parse_bullet_points text =
      (if specBullets text = [] then [text] else specBullets text) :=
  parse_bullet_points_eq_spec text

/-- C6 (counterexample to the claim as frozen): the claim says the fallback
single element is the *trimmed* response, but the code returns the original
untrimmed text: on input `" hello "` (no line qualifies as a bullet) the
result is `[" hello "]`, not `["hello"]`. -/
theorem claim_C6_counterexample :
    pyStrip (" hello ".toList) = "hello".toList ∧
    parse_bullet_points (" hello ".toList) = [" hello ".toList] ∧
    parse_bullet_points (" hello ".toList) ≠ ["hello".toList] := by
  refine ⟨by decide, by decide, by decide⟩

/-- C6 (amended): if zero lines of the response qualify as bullet items, the
entire original (untrimmed) response string is returned as a single-element
list, so the result is never an empty list for a non-empty input. -/
theorem claim_C6 (text : Str)
    (h : ∀ line ∈ pySplit '\n' text, specIsBulletStart (pyStrip line) = false) :
    parse_bullet_points text = [text] := by
  have hb : specBullets text = [] := by
    unfold specBullets
    rw [List.filterMap_eq_nil_iff]
    intro line hline
    unfold specBulletOfLine
    simp [h line hline]
  rw [parse_bullet_points_eq_spec, hb]
  simp

/-- C6 witness: the spec scenario `"Intro text only, no bullets."` has no
qualifying line, and the parser returns it whole as a single-element list. -/
theorem claim_C6_witness :
    parse_bullet_points ("Intro text only, no bullets.".toList) =
      ["Intro text only, no bullets.".toList] :=
  claim_C6 ("Intro text only, no bullets.".toList) (by decide)

/-- C10: bullet-point parsing returns a non-empty list for every input
(the empty string yields the one-element list containing the empty string),
and when some lines carry bullet markers but every marker-stripped line is
empty, the entire original untrimmed input is the single element returned. -/
theorem claim_C10 (text : Str) :
    parse_bullet_points text ≠ [] ∧
    parse_bullet_points ([] : Str) = [([] : Str)] ∧
    ((∃ line ∈ pySplit '\n' text, specIsBulletStart (pyStrip line) = true) →
     (∀ line ∈ pySplit '\n' text, specIsBulletStart (pyStrip line) = true →
        specStripMarkers (pyStrip line) = []) →
     parse_bullet_points text = [text]) := by
  refine ⟨?_, by decide, ?_⟩
  · rw [parse_bullet_points_eq_spec]
    by_cases h : specBullets text = []
    · simp [h]
    · simp [h]
  · intro _ hall
    have hb : specBullets text = [] := by
      unfold specBullets
      rw [List.filterMap_eq_nil_iff]
      intro line hline
      unfold specBulletOfLine
      by_cases hq : specIsBulletStart (pyStrip line) = true
      · simp [hq, hall line hline hq]
      · simp only [Bool.not_eq_true] at hq
        simp [hq]
    rw [parse_bullet_points_eq_spec, hb]
    simp

/-- C10 witness: on the input `"-\n* "` both lines carry bullet markers but
both clean to empty, and the whole original input is returned. -/
theorem claim_C10_witness :
    parse_bullet_points ("-\n* ".toList) = ["-\n* ".toList] :=
  (claim_C10 ("-\n* ".toList)).2.2 (by decide) (by decide)

/- ----------------------------------------------------------------------
   src/agents/__init__.py, chunk routing (lines 40-85): which chunks feed
   which analysis task, and how they are joined into the text parameter.
---------------------------------------------------------------------- -/

/-- Python `" ".join(chunks)`. -/
def joinSp (chunks : List Str) : Str :=
  List.intercalate [' '] chunks

/-- `_generate_summary`: `chunks[:3]` (line 43). -/
def summary_chunks (chunks : List Str) : List Str :=
  chunks.take 3

/-- `_extract_key_findings`: `chunks[-3:] if len(chunks) > 3 else chunks`
(line 51). -/
def key_findings_chunks (chunks : List Str) : List Str :=
  if 3 < chunks.length then chunks.drop (chunks.length - 3) else chunks

/-- `_extract_methodology`: `chunks[1:-1] if len(chunks) > 2 else chunks`
(line 61). -/
def methodology_chunks (chunks : List Str) : List Str :=
  if 2 < chunks.length then (chunks.drop 1).dropLast else chunks

/-- `_extract_contributions`: `[chunks[0]] + chunks[-2:] if len(chunks) > 2
else chunks` (line 70); in the guarded branch the list is non-empty, so
`[chunks[0]]` is `chunks.take 1`. -/
def contributions_chunks (chunks : List Str) : List Str :=
  if 2 < chunks.length then chunks.take 1 ++ chunks.drop (chunks.length - 2)
  else chunks

/-- `_extract_limitations`: `chunks[-2:] if len(chunks) > 1 else chunks`
(line 80). -/
def limitations_chunks (chunks : List Str) : List Str :=
  if 1 < chunks.length then chunks.drop (chunks.length - 2) else chunks

/-- The `text` parameter handed to `_get_prompt` for the summary task. -/
def summary_text (chunks : List Str) : Str := joinSp (summary_chunks chunks)

/-- The `text` parameter for the key-findings task. -/
def key_findings_text (chunks : List Str) : Str := joinSp (key_findings_chunks chunks)

/-- The `text` parameter for the methodology task. -/
def methodology_text (chunks : List Str) : Str := joinSp (methodology_chunks chunks)

/-- The `text` parameter for the contributions task. -/
def contributions_text (chunks : List Str) : Str := joinSp (contributions_chunks chunks)

/-- The `text` parameter for the limitations task. -/
def limitations_text (chunks : List Str) : Str := joinSp (limitations_chunks chunks)

/- Spec-side renderings of the routing table of the claim: "last k" is
written via reverse/take/reverse, "all but first and last" via drop/take. -/

/-- Spec-side "the last `n` chunks". -/
def specLastN (n : Nat) (chunks : List Str) : List Str :=
  (chunks.reverse.take n).reverse

/-- Spec-side summary selection: the first 3 chunks, or all if N ≤ 3. -/
def specSummarySel (chunks : List Str) : List Str :=
  if chunks.length ≤ 3 then chunks else chunks.take 3

/-- Spec-side key-findings selection: the last 3 chunks, or all if N ≤ 3. -/
def specKeyFindingsSel (chunks : List Str) : List Str :=
  if chunks.length ≤ 3 then chunks else specLastN 3 chunks

/-- Spec-side methodology selection: all but the first and last, or all if
N ≤ 2. -/
def specMethodologySel (chunks : List Str) : List Str :=
  if chunks.length ≤ 2 then chunks else (chunks.drop 1).take (chunks.length - 2)

/-- Spec-side contributions selection: the first chunk plus the last 2, or
all if N ≤ 2. -/
def specContributionsSel (chunks : List Str) : List Str :=
  if chunks.length ≤ 2 then chunks else chunks.take 1 ++ specLastN 2 chunks

/-- Spec-side limitations selection: the last 2 chunks, or all if N ≤ 1. -/
def specLimitationsSel (chunks : List Str) : List Str :=
  if chunks.length ≤ 1 then chunks else specLastN 2 chunks

theorem specLastN_eq_drop (n : Nat) (chunks : List Str) :
    specLastN n chunks = chunks.drop (chunks.length - n) := by
  rw [specLastN, ← List.rtake_eq_reverse_take_reverse]
  rfl

theorem specLastN_sublist (n : Nat) (chunks : List Str) :
    List.Sublist (specLastN n chunks) chunks := by
  rw [specLastN_eq_drop]
  exact List.drop_sublist _ _

theorem summary_sel_eq (chunks : List Str) :
    summary_chunks chunks = specSummarySel chunks := by
  unfold summary_chunks specSummarySel
  by_cases h : chunks.length ≤ 3
  · rw [if_pos h, List.take_of_length_le h]
  · rw [if_neg h]

theorem key_findings_sel_eq (chunks : List Str) :
    key_findings_chunks chunks = specKeyFindingsSel chunks := by
  unfold key_findings_chunks specKeyFindingsSel
  rw [specLastN_eq_drop]
  by_cases h : chunks.length ≤ 3
  · rw [if_neg (Nat.not_lt.mpr h), if_pos h]
  · rw [if_pos (Nat.lt_of_not_le h), if_neg h]

theorem methodology_sel_eq (chunks : List Str) :
    methodology_chunks chunks = specMethodologySel chunks := by
  unfold methodology_chunks specMethodologySel
  by_cases h : chunks.length ≤ 2
  · rw [if_neg (Nat.not_lt.mpr h), if_pos h]
  · rw [if_pos (Nat.lt_of_not_le h), if_neg h, List.dropLast_eq_take, List.length_drop]
    congr 1

theorem contributions_sel_eq (chunks : List Str) :
    contributions_chunks chunks = specContributionsSel chunks := by
  unfold contributions_chunks specContributionsSel
  rw [specLastN_eq_drop]
  by_cases h : chunks.length ≤ 2
  · rw [if_neg (Nat.not_lt.mpr h), if_pos h]
  · rw [if_pos (Nat.lt_of_not_le h), if_neg h]

theorem limitations_sel_eq (chunks : List Str) :
    limitations_chunks chunks = specLimitationsSel chunks := by
  unfold limitations_chunks specLimitationsSel
  rw [specLastN_eq_drop]
  by_cases h : chunks.length ≤ 1
  · rw [if_neg (Nat.not_lt.mpr h), if_pos h]
  · rw [if_pos (Nat.lt_of_not_le h), if_neg h]

theorem specSummarySel_sublist (chunks : List Str) :
    List.Sublist (specSummarySel chunks) chunks := by
  unfold specSummarySel
  by_cases h : chunks.length ≤ 3
  · rw [if_pos h]
  · rw [if_neg h]
    exact List.take_sublist _ _

theorem specKeyFindingsSel_sublist (chunks : List Str) :
    List.Sublist (specKeyFindingsSel chunks) chunks := by
  unfold specKeyFindingsSel
  by_cases h : chunks.length ≤ 3
  · rw [if_pos h]
  · rw [if_neg h]
    exact specLastN_sublist _ _

theorem specMethodologySel_sublist (chunks : List Str) :
    List.Sublist (specMethodologySel chunks) chunks := by
  unfold specMethodologySel
  by_cases h : chunks.length ≤ 2
  · rw [if_pos h]
  · rw [if_neg h]
    exact ((List.take_sublist _ _).trans (List.drop_sublist _ _))

theorem specContributionsSel_sublist (chunks : List Str) :
    List.Sublist (specContributionsSel chunks) chunks := by
  unfold specContributionsSel
  by_cases h : chunks.length ≤ 2
  · rw [if_pos h]
  · rw [if_neg h, specLastN_eq_drop]
    match chunks, h with
    | c :: rest, h =>
      have hc : (c :: rest).length - 2 = (rest.length - 2) + 1 := by
        simp only [List.length_cons] at h ⊢
        omega
      rw [hc, List.drop_succ_cons]
      show List.Sublist (c :: rest.drop (rest.length - 2)) (c :: rest)
      exact List.Sublist.cons₂ c (List.drop_sublist _ _)

theorem specLimitationsSel_sublist (chunks : List Str) :
    List.Sublist (specLimitationsSel chunks) chunks := by
  unfold specLimitationsSel
  by_cases h : chunks.length ≤ 1
  · rw [if_pos h]
  · rw [if_neg h]
    exact specLastN_sublist _ _

/-- C3: for every chunk sequence, the text routed to each of the five
analysis tasks is exactly the join (single separating space, original
order) of the chunks the claim prescribes: first 3 for summary (all if
N≤3), last 3 for key findings (all if N≤3), all but first and last for
methodology (all if N≤2), first plus last 2 for contributions (all if
N≤2), last 2 for limitations (all if N≤1); and each selection is a
subsequence of the original chunk list (original order preserved). -/
theorem claim_C3 (chunks : List Str) :
    summary_text chunks = joinSp (specSummarySel chunks) ∧
    key_findings_text chunks = joinSp (specKeyFindingsSel chunks) ∧
    methodology_text chunks = joinSp (specMethodologySel chunks) ∧
    contributions_text chunks = joinSp (specContributionsSel chunks) ∧
    limitations_text chunks = joinSp (specLimitationsSel chunks) ∧
    List.Sublist (specSummarySel chunks) chunks ∧
    List.Sublist (specKeyFindingsSel chunks) chunks ∧
    List.Sublist (specMethodologySel chunks) chunks ∧
    List.Sublist (specContributionsSel chunks) chunks ∧
    List.Sublist (specLimitationsSel chunks) chunks := by
  refine ⟨?_, ?_, ?_, ?_, ?_, specSummarySel_sublist chunks,
    specKeyFindingsSel_sublist chunks, specMethodologySel_sublist chunks,
    specContributionsSel_sublist chunks, specLimitationsSel_sublist chunks⟩
  · rw [summary_text, summary_sel_eq]
  · rw [key_findings_text, key_findings_sel_eq]
  · rw [methodology_text, methodology_sel_eq]
  · rw [contributions_text, contributions_sel_eq]
  · rw [limitations_text, limitations_sel_eq]

/- ----------------------------------------------------------------------
   src/prompts/__init__.py: PromptVersion, PromptTemplates and the four
   built-in template sets.  Template strings are transcribed byte-for-byte
   from the Python source (braces escaped as \x7b/\x7d, apostrophes as
   \x27).
---------------------------------------------------------------------- -/

/-- PromptTemplates._get_v1_templates (lines 37-76). -/
def v1_templates : List (String × String) := [
  ("system",
   "You are an expert academic researcher analyzing scientific papers."),
  ("summary",
   "\n            Please provide a comprehensive summary of this academic paper excerpt.\n            Focus on the main research question, approach, and key findings.\n            \n            Text: \x7btext\x7d\n            "),
  ("key_findings",
   "\n            Extract the key findings from this academic paper excerpt.\n            Return them as a list of bullet points.\n            \n            Text: \x7btext\x7d\n            "),
  ("methodology",
   "\n            Extract and summarize the methodology used in this research.\n            Focus on experimental design and methods.\n            \n            Text: \x7btext\x7d\n            "),
  ("contributions",
   "\n            Identify the main contributions of this research paper.\n            List them as bullet points.\n            \n            Text: \x7btext\x7d\n            "),
  ("limitations",
   "\n            Identify the limitations of this research.\n            List them as bullet points.\n            \n            Text: \x7btext\x7d\n            ")
]

/-- PromptTemplates._get_v2_templates (lines 78-165). -/
def v2_templates : List (String × String) := [
  ("system",
   "You are an expert academic researcher with deep knowledge in literature analysis. Provide detailed, accurate, and well-structured responses."),
  ("summary",
   "\n            Analyze this academic paper excerpt and provide a comprehensive summary in 3-4 paragraphs.\n            \n            Structure your response as follows:\n            1. Research context and motivation\n            2. Methodology and approach\n            3. Key findings and results\n            4. Implications and significance\n            \n            Focus on:\n            - Main research question and objectives\n            - Novel contributions to the field\n            - Practical applications\n            - Scientific rigor and validity\n            \n            Text: \x7btext\x7d\n            "),
  ("key_findings",
   "\n            Extract the key findings from this academic paper excerpt.\n            Focus on concrete results, discoveries, and measurable outcomes.\n            \n            Format as bullet points, each containing:\n            - The specific finding\n            - Supporting evidence or data when available\n            - Statistical significance if mentioned\n            \n            Avoid:\n            - Methodology descriptions\n            - Background information\n            - Speculation or interpretations\n            \n            Text: \x7btext\x7d\n            "),
  ("methodology",
   "\n            Extract and summarize the research methodology from this paper.\n            \n            Include details about:\n            - Study design (experimental, observational, etc.)\n            - Sample size and participant characteristics\n            - Data collection methods and instruments\n            - Analysis techniques and statistical methods\n            - Controls and variables\n            - Timeline and procedures\n            \n            Present in a clear, structured format that another researcher could understand and potentially replicate.\n            \n            Text: \x7btext\x7d\n            "),
  ("contributions",
   "\n            Identify the main contributions of this research paper to the scientific field.\n            \n            Consider:\n            - Novel theoretical insights\n            - New methodological approaches\n            - Empirical discoveries\n            - Practical applications\n            - Tools, datasets, or frameworks introduced\n            - Challenges to existing paradigms\n            \n            For each contribution, briefly explain why it\x27s significant and how it advances the field.\n            \n            Text: \x7btext\x7d\n            "),
  ("limitations",
   "\n            Identify the limitations of this research and any suggested future work.\n            \n            Look for:\n            - Acknowledged limitations by the authors\n            - Methodological constraints\n            - Sample size or scope limitations\n            - Generalizability concerns\n            - Technical or resource constraints\n            - Suggestions for future research directions\n            \n            Distinguish between explicit limitations mentioned by authors and potential limitations you can infer.\n            \n            Text: \x7btext\x7d\n            ")
]

/-- PromptTemplates._get_v3_templates (lines 167-270). -/
def v3_templates : List (String × String) := [
  ("system",
   "You are an expert academic researcher specializing in literature analysis. \n            Provide responses in the exact format requested, using clear structure and academic language.\n            Always base your analysis strictly on the provided text."),
  ("summary",
   "\n            Analyze this academic paper excerpt and provide a structured summary.\n            \n            OUTPUT FORMAT:\n            **Research Question**: [1-2 sentences]\n            **Methodology**: [2-3 sentences about approach]\n            **Key Results**: [2-3 sentences about main findings]\n            **Significance**: [1-2 sentences about implications]\n            \n            REQUIREMENTS:\n            - Use only information from the provided text\n            - Be concise but comprehensive\n            - Use academic language\n            - Highlight novel aspects\n            \n            TEXT TO ANALYZE:\n            \x7btext\x7d\n            "),
  ("key_findings",
   "\n            Extract key findings using this exact format:\n            \n            FINDING 1: [Specific result]\n            - Evidence: [Supporting data/observation]\n            - Significance: [Why this matters]\n            \n            FINDING 2: [Specific result]\n            - Evidence: [Supporting data/observation]\n            - Significance: [Why this matters]\n            \n            [Continue for all significant findings]\n            \n            INSTRUCTIONS:\n            - Only include findings explicitly stated in the text\n            - Focus on quantitative results when available\n            - Avoid methodology or background information\n            - Maximum 5 findings\n            \n            TEXT: \x7btext\x7d\n            "),
  ("methodology",
   "\n            Extract methodology information in this structured format:\n            \n            STUDY DESIGN: [Type of study]\n            PARTICIPANTS/SAMPLE: [Who/what was studied]\n            DATA COLLECTION: [How data was gathered]\n            ANALYSIS METHODS: [Statistical/analytical approaches]\n            CONTROLS: [What was controlled for]\n            \n            Only include information explicitly mentioned in the text.\n            If a section is not mentioned, write \"Not specified in excerpt\"\n            \n            TEXT: \x7btext\x7d\n            "),
  ("contributions",
   "\n            List contributions using this format:\n            \n            CONTRIBUTION 1: [Brief title]\n            Description: [What was contributed]\n            Impact: [How it advances the field]\n            \n            CONTRIBUTION 2: [Brief title]\n            Description: [What was contributed]\n            Impact: [How it advances the field]\n            \n            REQUIREMENTS:\n            - Focus on novel contributions only\n            - Base on explicit claims in the text\n            - Maximum 4 contributions\n            - Avoid restating existing knowledge\n            \n            TEXT: \x7btext\x7d\n            "),
  ("limitations",
   "\n            Extract limitations in this format:\n            \n            AUTHOR-ACKNOWLEDGED LIMITATIONS:\n            • [Limitation 1 as stated by authors]\n            • [Limitation 2 as stated by authors]\n            \n            METHODOLOGICAL CONSTRAINTS:\n            • [Constraint 1 from the methodology]\n            • [Constraint 2 from the methodology]\n            \n            FUTURE WORK SUGGESTIONS:\n            • [Suggestion 1 for future research]\n            • [Suggestion 2 for future research]\n            \n            Only include items explicitly mentioned in the text.\n            If a category has no items, write \"None mentioned in excerpt\"\n            \n            TEXT: \x7btext\x7d\n            ")
]

/-- PromptTemplates._get_experimental_templates (lines 272-307): defines only system, summary and key_findings. -/
def experimental_templates : List (String × String) := [
  ("system",
   "You are an AI research assistant. Provide detailed analysis with confidence scores."),
  ("summary",
   "\n            [EXPERIMENTAL PROMPT - Chain of Thought]\n            \n            Let me analyze this paper step by step:\n            \n            Step 1: Identify the core research question\n            Step 2: Understand the methodology \n            Step 3: Extract key results\n            Step 4: Assess significance\n            \n            Now provide a comprehensive summary addressing each step:\n            \n            Text: \x7btext\x7d\n            "),
  ("key_findings",
   "\n            [EXPERIMENTAL PROMPT - Confidence Scoring]\n            \n            Extract findings and rate your confidence in each extraction:\n            \n            For each finding, provide:\n            - Finding: [What was found]\n            - Confidence: [High/Medium/Low]\n            - Evidence strength: [Strong/Moderate/Weak]\n            - Quote: [Relevant text excerpt if available]\n            \n            Text: \x7btext\x7d\n            ")
]

/- ----------------------------------------------------------------------
   A model of Python `str.format` restricted to simple named fields, the
   only feature the templates of this repository use.  `\x7b\x7b` and
   `\x7d\x7d` are literal braces; `\x7bname\x7d` substitutes the parameter
   `name`; a lone closing brace, an unterminated field, or a field whose
   name is not among the parameters is an error (`none`), as in Python
   (ValueError / KeyError).  The fuel argument only makes the recursion
   structural; it is initialised to the length of the input, which every
   recursive call preserves as an upper bound of the remaining input.
---------------------------------------------------------------------- -/

/-- Fuel-indexed worker for `pyFormat`. -/
def pyFormatFuel (ps : List (String × Str)) : Nat → Str → Option Str
  | _, [] => some []
  | 0, _ :: _ => none
  | fuel+1, c :: cs =>
    if c = '\x7b' then
      match cs with
      | [] => none
      | d :: cs2 =>
        if d = '\x7b' then (pyFormatFuel ps fuel cs2).map (fun r => '\x7b' :: r)
        else
          match (d :: cs2).dropWhile (fun x => x != '\x7d') with
          | [] => none
          | _ :: cs3 =>
            match ps.lookup (String.mk ((d :: cs2).takeWhile (fun x => x != '\x7d'))) with
            | some v => (pyFormatFuel ps fuel cs3).map (fun r => v ++ r)
            | none => none
    else if c = '\x7d' then
      match cs with
      | [] => none
      | d :: cs2 =>
        if d = '\x7d' then (pyFormatFuel ps fuel cs2).map (fun r => '\x7d' :: r)
        else none
    else (pyFormatFuel ps fuel cs).map (fun r => c :: r)

/-- Python `template.format(**kwargs)` for string-valued keyword arguments
and simple named fields. -/
def pyFormat (ps : List (String × Str)) (l : Str) : Option Str :=
  pyFormatFuel ps l.length l

/-- `PromptVersion` (src/prompts/__init__.py lines 7-11). -/
inductive PromptVersion where
  | v1_basic
  | v2_detailed
  | v3_structured
  | experimental
deriving DecidableEq

/-- `PromptVersion.value` (the `.value` of the Python enum member). -/
def PromptVersion.value : PromptVersion → String
  | .v1_basic => "v1_basic"
  | .v2_detailed => "v2_detailed"
  | .v3_structured => "v3_structured"
  | .experimental => "experimental"

/-- `PromptTemplates._load_templates` (lines 20-27): the dict from version
value to that version's template set. -/
def load_templates : List (String × List (String × String)) :=
  [(PromptVersion.v1_basic.value, v1_templates),
   (PromptVersion.v2_detailed.value, v2_templates),
   (PromptVersion.v3_structured.value, v3_templates),
   (PromptVersion.experimental.value, experimental_templates)]

/-- The state of a `PromptTemplates` instance: its `version` and its
`templates` attribute. -/
structure PromptTemplatesObj where
  version : PromptVersion
  templates : List (String × List (String × String))

/-- `PromptTemplates.__init__` (lines 16-18). -/
def PromptTemplates.init (version : PromptVersion) : PromptTemplatesObj :=
  ⟨version, load_templates⟩

/-- `PromptTemplates.get_prompt` (lines 29-35):
`template = self.templates[self.version.value].get(task)`;
`if not template: raise ValueError(...)` (both a missing task and an empty
template raise); then `template.format(**kwargs)` (a format failure, e.g. a
missing placeholder parameter, propagates as KeyError). -/
def PromptTemplatesObj.get_prompt (self : PromptTemplatesObj) (task : String)
    (kwargs : List (String × Str)) : Except String Str :=
  match self.templates.lookup self.version.value with
  | none => .error "KeyError"
  | some tdict =>
    match tdict.lookup task with
    | none => .error ("No template found for task: " ++ task)
    | some template =>
      if template = "" then .error ("No template found for task: " ++ task)
      else
        match pyFormat kwargs template.toList with
        | some r => .ok r
        | none => .error "KeyError"

/-- `get_prompt` with explicit state passing: the method reads `self` but
never assigns to it, so the returned object is the receiver unchanged. -/
def PromptTemplatesObj.get_prompt_st (self : PromptTemplatesObj) (task : String)
    (kwargs : List (String × Str)) : Except String Str × PromptTemplatesObj :=
  (self.get_prompt task kwargs, self)

/-- Module-level `get_prompt(task, version, **kwargs)` (lines 313-318) for a
given (truthy) version: builds `PromptTemplates(version)` and resolves. -/
def get_prompt_mod (task : String) (version : PromptVersion)
    (kwargs : List (String × Str)) : Except String Str :=
  (PromptTemplates.init version).get_prompt task kwargs

/-- `PromptConfig.get_custom_prompt` (src/prompts/config.py lines 43-53)
over a registry of well-formed (string-valued) template sets:
`ValueError` when the configuration name is not a key of the loaded sets,
`ValueError` when the task is not a key of that set, otherwise
`template.format(**kwargs)` (whose failure propagates as KeyError). -/
def get_custom_prompt (custom_prompts : List (String × List (String × String)))
    (config_name task : String) (kwargs : List (String × Str)) : Except String Str :=
  match custom_prompts.lookup config_name with
  | none => .error ("Configuration \x27" ++ config_name ++ "\x27 not found")
  | some config =>
    match config.lookup task with
    | none => .error ("Task \x27" ++ task ++ "\x27 not found in configuration \x27"
        ++ config_name ++ "\x27")
    | some template =>
      match pyFormat kwargs template.toList with
      | some r => .ok r
      | none => .error "KeyError"

/-- `get_custom_prompt` with explicit state passing: the method reads the
loaded sets but never mutates them. -/
def get_custom_prompt_st (custom_prompts : List (String × List (String × String)))
    (config_name task : String) (kwargs : List (String × Str)) :
    Except String Str × List (String × List (String × String)) :=
  (get_custom_prompt custom_prompts config_name task kwargs, custom_prompts)

/-- The resolution tried inside `LiteratureReviewAgent._get_prompt` (lines
89-93): `if self.custom_config:` consult the override registry under that
name, otherwise the built-in version (`None` and the empty string are both
falsy). -/
def resolvePrompt (custom_config : Option String)
    (custom_prompts : List (String × List (String × String)))
    (version : PromptVersion) (task : String)
    (kwargs : List (String × Str)) : Except String Str :=
  match custom_config with
  | some name =>
    if name = "" then get_prompt_mod task version kwargs
    else get_custom_prompt custom_prompts name task kwargs
  | none => get_prompt_mod task version kwargs

/-- `LiteratureReviewAgent._get_prompt` (lines 87-96): any exception during
resolution is absorbed and replaced by
`f"Analyze this text for {task}: {kwargs.get('text', '')}"`. -/
def agent_get_prompt (custom_config : Option String)
    (custom_prompts : List (String × List (String × String)))
    (version : PromptVersion) (task : String)
    (kwargs : List (String × Str)) : Str :=
  match resolvePrompt custom_config custom_prompts version task kwargs with
  | .ok s => s
  | .error _ =>
    "Analyze this text for ".toList ++ task.toList ++ ": ".toList
      ++ ((kwargs.lookup "text").getD [])

/- ----------------------------------------------------------------------
   src/prompts/config.py, PromptConfig._load_custom_prompts (lines 17-41):
   the file-level loading loop.  Everything in the try block — open, parse
   (yaml.safe_load / json.load) and `prompts.update(data)` — can raise, and
   the except clause only prints a warning and moves on to the next file.
   A configuration file is therefore modelled by what its try block does to
   `prompts` before it either finishes or raises:
     * `parseError`: opening or parsing raises; nothing reaches `update`
       and the file contributes nothing;
     * `mapping d`: the file parses to a dict `d`; `dict.update` with a
       dict argument merges every key/value and cannot raise partway;
     * `seq inserted raises`: the file parses to a non-dict value that
       `dict.update` treats as an iterable of key/value pairs; CPython
       inserts each valid pair as it iterates, so when a later element
       fails to unpack (`raises = true`) the pairs already inserted STAY
       in `prompts` — a merge-raising file still contributes `inserted`,
       and a fully valid pair sequence merges whole (`raises = false`).
       A parse result that `update` rejects before inserting anything
       (e.g. an int) is `seq [] true`.
---------------------------------------------------------------------- -/

/-- A parsed configuration value: what yaml/json loading can place at a
key of a configuration file (only the constructors the claims need). -/
inductive PyValue where
  | str : String → PyValue
  | int : Int → PyValue
  | dict : List (String × PyValue) → PyValue

/-- One configuration file, represented by the outcome of its try block
(see the section comment above). -/
inductive ConfigFile where
  | parseError
  | mapping (d : List (String × PyValue))
  | seq (inserted : List (String × PyValue)) (raises : Bool)

/-- Does the file's try block raise (and hit the warning-printing except
clause)? -/
def fileRaises : ConfigFile → Bool
  | .parseError => true
  | .mapping _ => false
  | .seq _ raises => raises

/-- The key/value pairs the file's `prompts.update(data)` call inserts
before the try block finishes or raises. -/
def fileEntries : ConfigFile → List (String × PyValue)
  | .parseError => []
  | .mapping d => d
  | .seq inserted _ => inserted

/-- Python `dict` assignment `d[k] = v` on an insertion-ordered
association list: overwrite in place if the key exists, append otherwise. -/
def dictSet (d : List (String × PyValue)) (k : String) (v : PyValue) :
    List (String × PyValue) :=
  if (d.lookup k).isSome then
    d.map (fun kv => if kv.1 = k then (k, v) else kv)
  else d ++ [(k, v)]

/-- Python `dict.update` semantics common to both the dict argument and the
pair-sequence argument: assign every entry in iteration order. -/
def dictUpdate (base upd : List (String × PyValue)) : List (String × PyValue) :=
  upd.foldl (fun acc kv => dictSet acc kv.1 kv.2) base

/-- `PromptConfig._load_custom_prompts`: start from the empty dict and fold
the files in scan order; each file contributes exactly the entries its
update call inserted (whether or not the try block then raised), and the
loop always continues with the next file. -/
def load_custom_prompts (files : List ConfigFile) : List (String × PyValue) :=
  files.foldl (fun acc f => dictUpdate acc (fileEntries f)) []

/- ----------------------------------------------------------------------
   Claim theorems about the template registry, resolution and loading
   (C1, C4, C5, C7, C8, C9).
---------------------------------------------------------------------- -/

/-- Does the pattern occur as a contiguous substring? -/
def containsSeq (pat : Str) : Str → Bool
  | [] => pat.isEmpty
  | c :: rest => pat.isPrefixOf (c :: rest) || containsSeq pat rest

/-- Does the template string contain the `\x7btext\x7d` placeholder? -/
def hasTextPH (t : String) : Bool :=
  containsSeq ("\x7btext\x7d".toList) t.toList

/-- The five analysis tasks of the system. -/
def analysisTasks : List String :=
  ["summary", "key_findings", "methodology", "contributions", "limitations"]

/-- C1 (counterexample to the claim as frozen): the experimental built-in
version does not define the methodology task (nor contributions or
limitations), so resolving methodology against it is an error, not a
non-empty template containing the placeholder. -/
theorem claim_C1_counterexample :
    experimental_templates.lookup "methodology" = none ∧
    (PromptTemplates.init PromptVersion.experimental).get_prompt "methodology"
      [("text", "x".toList)] = .error "No template found for task: methodology" :=
  ⟨rfl, rfl⟩

set_option maxRecDepth 200000 in
/-- C1 (amended): for the three complete built-in versions (v1_basic,
v2_detailed, v3_structured) every one of the five analysis tasks resolves
to a non-empty template string containing the `\x7btext\x7d` placeholder;
the experimental version defines only summary and key_findings among the
five (both non-empty and containing the placeholder) and lacks the other
three. -/
theorem claim_C1 :
    (∀ v : PromptVersion, v ≠ PromptVersion.experimental →
      ∀ task ∈ analysisTasks,
        ∃ tset t, load_templates.lookup v.value = some tset ∧
          tset.lookup task = some t ∧ t ≠ "" ∧ hasTextPH t = true) ∧
    (∀ task ∈ (["summary", "key_findings"] : List String),
        ∃ t, experimental_templates.lookup task = some t ∧ t ≠ "" ∧
          hasTextPH t = true) ∧
    (∀ task ∈ (["methodology", "contributions", "limitations"] : List String),
        experimental_templates.lookup task = none) := by
  refine ⟨?_, ?_, ?_⟩
  · intro v hv task htask
    simp only [analysisTasks, List.mem_cons, List.not_mem_nil, or_false] at htask
    cases v with
    | experimental => exact absurd rfl hv
    | v1_basic =>
      rcases htask with rfl | rfl | rfl | rfl | rfl <;>
        exact ⟨v1_templates, _, rfl, rfl, by decide, by decide⟩
    | v2_detailed =>
      rcases htask with rfl | rfl | rfl | rfl | rfl <;>
        exact ⟨v2_templates, _, rfl, rfl, by decide, by decide⟩
    | v3_structured =>
      rcases htask with rfl | rfl | rfl | rfl | rfl <;>
        exact ⟨v3_templates, _, rfl, rfl, by decide, by decide⟩
  · intro task htask
    simp only [List.mem_cons, List.not_mem_nil, or_false] at htask
    rcases htask with rfl | rfl <;> exact ⟨_, rfl, by decide, by decide⟩
  · intro task htask
    simp only [List.mem_cons, List.not_mem_nil, or_false] at htask
    rcases htask with rfl | rfl | rfl <;> rfl

set_option maxRecDepth 200000 in
/-- C1 witness: v1_basic and the summary task satisfy the amended claim. -/
theorem claim_C1_witness :
    ∃ tset t, load_templates.lookup PromptVersion.v1_basic.value = some tset ∧
      tset.lookup "summary" = some t ∧ t ≠ "" ∧ hasTextPH t = true :=
  claim_C1.1 PromptVersion.v1_basic (by decide) "summary" (by decide)

/-- C4: the agent prompt resolution is a total function; whenever the
underlying resolution errors (for any reason) it returns the generic
fallback string built from the task name and the supplied text parameter
(empty if absent); when the resolution succeeds it returns that result;
and a non-empty custom override name routes resolution to the override
registry instead of the built-in version. -/
theorem claim_C4 (custom_config : Option String)
    (custom_prompts : List (String × List (String × String)))
    (version : PromptVersion) (task : String) (kwargs : List (String × Str)) :
    (∀ e, resolvePrompt custom_config custom_prompts version task kwargs = .error e →
      agent_get_prompt custom_config custom_prompts version task kwargs =
        "Analyze this text for ".toList ++ task.toList ++ ": ".toList
          ++ ((kwargs.lookup "text").getD [])) ∧
    (∀ s, resolvePrompt custom_config custom_prompts version task kwargs = .ok s →
      agent_get_prompt custom_config custom_prompts version task kwargs = s) ∧
    (∀ name, custom_config = some name → name ≠ "" →
      resolvePrompt custom_config custom_prompts version task kwargs =
        get_custom_prompt custom_prompts name task kwargs) := by
  refine ⟨?_, ?_, ?_⟩
  · intro e he
    unfold agent_get_prompt
    rw [he]
  · intro s hs
    unfold agent_get_prompt
    rw [hs]
  · intro name hn hne
    subst hn
    simp only [resolvePrompt]
    rw [if_neg hne]

/-- C4 witness: with an absent override name the agent returns the generic
fallback built from the task and the text parameter. -/
theorem claim_C4_witness :
    agent_get_prompt (some "nonexistent_v9") [] PromptVersion.v2_detailed "summary"
      [("text", "T".toList)] =
      "Analyze this text for ".toList ++ "summary".toList ++ ": ".toList
        ++ "T".toList :=
  (claim_C4 (some "nonexistent_v9") [] PromptVersion.v2_detailed "summary"
    [("text", "T".toList)]).1 ("Configuration \x27nonexistent_v9\x27 not found") rfl

/-- A sibling file that loads the set "goodset" correctly (for the C5
counterexample). -/
def siblingFile : List (String × PyValue) :=
  [("goodset", PyValue.dict [("summary", PyValue.str "S")])]

/-- A malformed file for the C5 counterexample: it parses to a pair
sequence such as JSON `[["goodset", "junk"], 3]`, so `prompts.update`
inserts ("goodset", "junk") and then raises unpacking `3` — the merge
raises, but the inserted pair stays. -/
def badSeqFile : ConfigFile :=
  ConfigFile.seq [("goodset", PyValue.str "junk")] true

/-- C5 (counterexample to the claim as frozen): per-file isolation fails on
the merge path.  `badSeqFile` is malformed (its merge raises), yet loading
it after `siblingFile` does not leave the sibling's "goodset" set intact:
the pair inserted before the exception overwrites it, and the resulting
mapping differs from the scan without the malformed file. -/
theorem claim_C5_counterexample :
    fileRaises badSeqFile = true ∧
    load_custom_prompts [ConfigFile.mapping siblingFile, badSeqFile]
      = [("goodset", PyValue.str "junk")] ∧
    load_custom_prompts [ConfigFile.mapping siblingFile, badSeqFile]
      ≠ load_custom_prompts [ConfigFile.mapping siblingFile] := by
  refine ⟨rfl, rfl, ?_⟩
  intro h
  have h2 : ([("goodset", PyValue.str "junk")] : List (String × PyValue))
      = [("goodset", PyValue.dict [("summary", PyValue.str "S")])] := h
  simp at h2

/-- C5 (amended): loading always continues past a file — the remaining
files are folded in regardless of whether that file raised — and a file
whose parse raises contributes nothing, leaving the mapping exactly as if
the file were absent (sibling sets intact and queryable); but a file whose
merge raises keeps the pairs its update call inserted before the
exception, so isolation holds only up to those insertions. -/
theorem claim_C5 (fs1 fs2 : List ConfigFile) (f : ConfigFile) :
    load_custom_prompts (fs1 ++ f :: fs2)
      = fs2.foldl (fun acc g => dictUpdate acc (fileEntries g))
          (dictUpdate (load_custom_prompts fs1) (fileEntries f)) ∧
    (f = ConfigFile.parseError →
      load_custom_prompts (fs1 ++ f :: fs2) = load_custom_prompts (fs1 ++ fs2) ∧
      ∀ k, (load_custom_prompts (fs1 ++ f :: fs2)).lookup k
          = (load_custom_prompts (fs1 ++ fs2)).lookup k) := by
  have h1 : load_custom_prompts (fs1 ++ f :: fs2)
      = fs2.foldl (fun acc g => dictUpdate acc (fileEntries g))
          (dictUpdate (load_custom_prompts fs1) (fileEntries f)) := by
    unfold load_custom_prompts
    rw [List.foldl_append, List.foldl_cons]
  refine ⟨h1, ?_⟩
  rintro rfl
  have h2 : load_custom_prompts (fs1 ++ ConfigFile.parseError :: fs2)
      = load_custom_prompts (fs1 ++ fs2) := by
    unfold load_custom_prompts
    rw [List.foldl_append, List.foldl_append, List.foldl_cons]
    rfl
  exact ⟨h2, fun k => by rw [h2]⟩

/-- C5 witness: a parse-raising file after a valid file leaves the mapping
exactly as if it were absent. -/
theorem claim_C5_witness :
    load_custom_prompts [ConfigFile.mapping siblingFile, ConfigFile.parseError]
      = load_custom_prompts [ConfigFile.mapping siblingFile] :=
  ((claim_C5 [ConfigFile.mapping siblingFile] [] ConfigFile.parseError).2 rfl).1

/-- C7 (counterexample to the claim as frozen): a configuration file whose
set carries a non-string leaf value (here an integer under "summary") is
not rejected: the loader performs no validation, loads the file, and its
set is fully present in the resulting mapping. -/
def badConfigFile : List (String × PyValue) :=
  [("myset", PyValue.dict [("summary", PyValue.int 5)])]

/-- C7 counterexample theorem: the file with a non-string leaf parses as a
mapping, loads without raising, and its set is added, contradicting
"loading that file is an error for that file only: the file's sets are not
added". -/
theorem claim_C7_counterexample :
    fileRaises (ConfigFile.mapping badConfigFile) = false ∧
    load_custom_prompts [ConfigFile.mapping badConfigFile] = badConfigFile ∧
    (load_custom_prompts [ConfigFile.mapping badConfigFile]).lookup "myset"
      = some (PyValue.dict [("summary", PyValue.int 5)]) :=
  ⟨rfl, rfl, rfl⟩

/-- C7 (amended): loading performs no schema validation: a file that parses
to a mapping is merged into the registry as-is — unknown top-level keys and
non-string leaf values included — on top of whatever the other files
loaded, which stays in place. -/
theorem claim_C7 (fs : List ConfigFile) (d : List (String × PyValue)) :
    load_custom_prompts (fs ++ [ConfigFile.mapping d])
      = dictUpdate (load_custom_prompts fs) d := by
  unfold load_custom_prompts
  rw [List.foldl_append, List.foldl_cons, List.foldl_nil]
  rfl

/-- C8 (counterexample to the claim as frozen): `get_custom_prompt` can
also raise when the configuration name IS loaded and the task IS present —
namely when substitution fails because the template references a parameter
that was not supplied. -/
def c8_registry : List (String × List (String × String)) :=
  [("myset", [("summary", "A \x7bmissing\x7d B")])]

/-- C8 counterexample theorem: with `c8_registry` the selector and the task
both resolve, yet resolution with no parameters errors (KeyError from
format), refuting "raises exactly when the name is unknown or the task is
absent". -/
theorem claim_C8_counterexample :
    (c8_registry.lookup "myset").isSome = true ∧
    ((c8_registry.lookup "myset").getD []).lookup "summary"
      = some "A \x7bmissing\x7d B" ∧
    get_custom_prompt c8_registry "myset" "summary" [] = .error "KeyError" :=
  ⟨rfl, rfl, rfl⟩

/-- C8 (amended): `get_custom_prompt` errors exactly when the configuration
name is not among the loaded sets, or the task is absent from that set, or
substitution of the supplied parameters into the task's template fails
(missing placeholder parameter or malformed braces); otherwise it returns
the template with the parameters substituted. -/
theorem claim_C8 (reg : List (String × List (String × String)))
    (name task : String) (kwargs : List (String × Str)) :
    (reg.lookup name = none →
      get_custom_prompt reg name task kwargs =
        .error ("Configuration \x27" ++ name ++ "\x27 not found")) ∧
    (∀ cfg, reg.lookup name = some cfg → cfg.lookup task = none →
      get_custom_prompt reg name task kwargs =
        .error ("Task \x27" ++ task ++ "\x27 not found in configuration \x27"
          ++ name ++ "\x27")) ∧
    (∀ cfg t, reg.lookup name = some cfg → cfg.lookup task = some t →
      get_custom_prompt reg name task kwargs =
        (match pyFormat kwargs t.toList with
         | some r => .ok r
         | none => .error "KeyError")) ∧
    ((∃ s, get_custom_prompt reg name task kwargs = .ok s) ↔
      (∃ cfg t r, reg.lookup name = some cfg ∧ cfg.lookup task = some t ∧
        pyFormat kwargs t.toList = some r)) := by
  refine ⟨?_, ?_, ?_, ?_⟩
  · intro h
    simp [get_custom_prompt, h]
  · intro cfg h1 h2
    simp [get_custom_prompt, h1, h2]
  · intro cfg t h1 h2
    simp [get_custom_prompt, h1, h2]
  · constructor
    · rintro ⟨s, hs⟩
      rcases hl : reg.lookup name with _ | cfg
      · simp [get_custom_prompt, hl] at hs
      · rcases hl2 : cfg.lookup task with _ | t
        · simp [get_custom_prompt, hl, hl2] at hs
        · rcases hf : pyFormat kwargs t.toList with _ | r
          · have hf2 : pyFormat kwargs t.data = none := hf
            simp [get_custom_prompt, hl, hl2, hf2] at hs
          · exact ⟨cfg, t, r, rfl, hl2, hf⟩
    · rintro ⟨cfg, t, r, h1, h2, h3⟩
      have h4 : pyFormat kwargs t.data = some r := h3
      exact ⟨r, by simp [get_custom_prompt, h1, h2, h4]⟩

/-- C8 witness: an unknown selector yields the TemplateNotFound-style
error. -/
theorem claim_C8_witness :
    get_custom_prompt [] "nonexistent_v9" "summary" [] =
      .error "Configuration \x27nonexistent_v9\x27 not found" :=
  (claim_C8 [] "nonexistent_v9" "summary" []).1 rfl

/-- C9: prompt resolution is deterministic and side-effect free: in the
state-passing renderings of `PromptTemplates.get_prompt` and
`PromptConfig.get_custom_prompt`, resolving leaves the template registry
state unchanged, and resolving the same (task, selector, params) again
from the returned state yields an identical result. -/
theorem claim_C9 (o : PromptTemplatesObj) (task : String)
    (kwargs : List (String × Str))
    (reg : List (String × List (String × String))) (name task2 : String)
    (kwargs2 : List (String × Str)) :
    (o.get_prompt_st task kwargs).2 = o ∧
    ((o.get_prompt_st task kwargs).2.get_prompt_st task kwargs).1
      = (o.get_prompt_st task kwargs).1 ∧
    (get_custom_prompt_st reg name task2 kwargs2).2 = reg ∧
    (get_custom_prompt_st (get_custom_prompt_st reg name task2 kwargs2).2
        name task2 kwargs2).1
      = (get_custom_prompt_st reg name task2 kwargs2).1 :=
  ⟨rfl, rfl, rfl, rfl⟩

end LitReview
